import Mathlib

/-!
Verification development for the helper module src/helpers/neo4j_for_adk.py of
the GOOGLE-ADK-PROJECT repository: a shallow embedding of the value
normalizer to_python, the envelope helpers tool_success and tool_error,
result_to_adk, and the query gateway class Neo4jForADK (construction and
send_query), together with theorems settling the specification claims.
-/

namespace AdkNeo4j

/-- Python runtime values that can flow through the helper module, as a tagged
union: the neo4j driver classes Record, Node, Relationship and Path, the
neo4j.time temporal classes (each carried together with the string its
conversion produces: iso_format for DateTime, str for Date, Time and
Duration), plain dicts and lists, the primitives, and an opaque constructor
obj for any other Python object (identified by a tag). -/
inductive PyValue where
  | record : List (String × PyValue) → PyValue
  | dict : List (String × PyValue) → PyValue
  | list : List PyValue → PyValue
  | node : Int → List String → List (String × PyValue) → PyValue
  | relationship : Int → String → Int → Int → List (String × PyValue) → PyValue
  | path : List PyValue → List PyValue → PyValue
  | dateTime : String → PyValue
  | date : String → PyValue
  | timeOfDay : String → PyValue
  | duration : String → PyValue
  | str : String → PyValue
  | int : Int → PyValue
  | bool : Bool → PyValue
  | none : PyValue
  | obj : String → PyValue

mutual

/-- Embedding of the recursive converter to_python. The match arms follow the
isinstance chain of the source in its textual order: Record, dict, list, Node,
Relationship, Path, neo4j.time.DateTime, then neo4j.time.Date, Time and
Duration, and finally the else arm returning the value unchanged (spelled out
per remaining constructor). In the Node and Relationship arms the source
computes to_python(dict(value)) for the properties; since to_python on a dict
is definitionally PyValue.dict of to_python_pairs, that call is written in its
one-step unfolded form here to keep the recursion structural. -/
def to_python : PyValue → PyValue
  | PyValue.record kvs => PyValue.dict (to_python_pairs kvs)
  | PyValue.dict kvs => PyValue.dict (to_python_pairs kvs)
  | PyValue.list vs => PyValue.list (to_python_list vs)
  | PyValue.node i ls props =>
      PyValue.dict [("id", PyValue.int i),
                    ("labels", PyValue.list (ls.map PyValue.str)),
                    ("properties", PyValue.dict (to_python_pairs props))]
  | PyValue.relationship i t s e props =>
      PyValue.dict [("id", PyValue.int i),
                    ("type", PyValue.str t),
                    ("start_node", PyValue.int s),
                    ("end_node", PyValue.int e),
                    ("properties", PyValue.dict (to_python_pairs props))]
  | PyValue.path ns rs =>
      PyValue.dict [("nodes", PyValue.list (to_python_list ns)),
                    ("relationships", PyValue.list (to_python_list rs))]
  | PyValue.dateTime iso => PyValue.str iso
  | PyValue.date s => PyValue.str s
  | PyValue.timeOfDay s => PyValue.str s
  | PyValue.duration s => PyValue.str s
  | PyValue.str s => PyValue.str s
  | PyValue.int n => PyValue.int n
  | PyValue.bool b => PyValue.bool b
  | PyValue.none => PyValue.none
  | PyValue.obj o => PyValue.obj o

/-- Elementwise to_python over a Python list, as in the list comprehensions of
the source. -/
def to_python_list : List PyValue → List PyValue
  | [] => []
  | v :: vs => to_python v :: to_python_list vs

/-- Valuewise to_python over the items of a Python dict (keys unchanged), as
in the dict comprehensions of the source. -/
def to_python_pairs : List (String × PyValue) → List (String × PyValue)
  | [] => []
  | (k, v) :: kvs => (k, to_python v) :: to_python_pairs kvs

end

/-- Embedding of tool_success: the dict literal with key status mapped to
success and the given key mapped to the given result. -/
def tool_success (key : String) (result : PyValue) : PyValue :=
  PyValue.dict [("status", PyValue.str "success"), (key, result)]

/-- Embedding of tool_error: the dict literal with key status mapped to error
and key error_message mapped to the given message. -/
def tool_error (message : String) : PyValue :=
  PyValue.dict [("status", PyValue.str "error"), ("error_message", PyValue.str message)]

/-- Outcome of a Python expression that may raise: either a value or an
exception carrying str(e), the message string of the exception. -/
inductive ExcOr (α : Type) where
  | ok : α → ExcOr α
  | exc : String → ExcOr α

/-- A neo4j Result object, reduced to the behavior send_query consumes from
it: materializing via to_eager_result and reading record.data() for every
record either yields the ordered list of record data dicts (each a mapping
from column name to raw value) or raises. -/
structure ResultObj where
  to_eager_records : ExcOr (List (List (String × PyValue)))

/-- A neo4j Session object, reduced to the behavior send_query consumes: run
takes the cypher query, the parameter dict and the database_ keyword argument
and either yields a Result or raises. -/
structure SessionObj where
  run : String → List (String × PyValue) → String → ExcOr ResultObj

/-- A neo4j Driver object, reduced to the behavior send_query consumes: the
session() call either yields a Session or raises. -/
structure Driver where
  session : ExcOr SessionObj

/-- Embedding of result_to_adk: materialize the result eagerly, convert every
record data dict through to_python, and wrap the list under the key
query_result via tool_success. An exception raised by the materialization
propagates. -/
def result_to_adk (result : ResultObj) : ExcOr PyValue :=
  match result.to_eager_records with
  | ExcOr.exc m => ExcOr.exc m
  | ExcOr.ok records =>
      ExcOr.ok (tool_success "query_result"
        (PyValue.list (records.map (fun record => to_python (PyValue.dict record)))))

/-- State of a constructed Neo4jForADK instance: the driver handle and the
database_name string fixed at construction. -/
structure Neo4jForADK where
  driver : Driver
  database_name : String

/-- How one call to send_query exits: by returning a Python dict, or by an
exception propagating to the caller uncaught. -/
inductive CallExit where
  | ret : PyValue → CallExit
  | raised : String → CallExit

/-- Observable trace of one call to send_query: how it exits, how many
sessions it acquired and closed, and the argument triples (query string,
parameter dict, database_ keyword) of its session.run invocations. -/
structure CallTrace where
  exit : CallExit
  sessionsAcquired : Nat
  sessionsClosed : Nat
  runCalls : List (String × List (String × PyValue) × String)

/-- Embedding of the Python expression parameters or empty-dict: the default
value None and a falsy dict (the empty one) both give the empty dict, a
truthy dict gives itself. -/
def paramsOrEmpty : Option (List (String × PyValue)) → List (String × PyValue)
  | Option.none => []
  | Option.some kvs => if kvs.isEmpty then [] else kvs

/-- Embedding of Neo4jForADK.send_query. The session is acquired by
self.driver.session() before the try block, so an exception there propagates
and no session is closed. Inside the try block, session.run is invoked with
the query, parameters-or-empty and database_ equal to self.database_name;
result_to_adk converts a successful result; the except arm turns any raised
exception into tool_error of its message; the finally arm closes the session
on every exit from the try block. -/
def send_query (self : Neo4jForADK) (cypher_query : String)
    (parameters : Option (List (String × PyValue))) : CallTrace :=
  match self.driver.session with
  | ExcOr.exc m =>
      { exit := CallExit.raised m, sessionsAcquired := 0, sessionsClosed := 0, runCalls := [] }
  | ExcOr.ok session =>
      let args := (cypher_query, paramsOrEmpty parameters, self.database_name)
      match session.run cypher_query (paramsOrEmpty parameters) self.database_name with
      | ExcOr.exc m =>
          { exit := CallExit.ret (tool_error m), sessionsAcquired := 1, sessionsClosed := 1,
            runCalls := [args] }
      | ExcOr.ok result =>
          match result_to_adk result with
          | ExcOr.exc m =>
              { exit := CallExit.ret (tool_error m), sessionsAcquired := 1, sessionsClosed := 1,
                runCalls := [args] }
          | ExcOr.ok envelope =>
              { exit := CallExit.ret envelope, sessionsAcquired := 1, sessionsClosed := 1,
                runCalls := [args] }

/-- Embedding of calling send_query with the parameters argument omitted: the
Python signature declares parameters=None, so the omitted argument is None. -/
def send_query_default (self : Neo4jForADK) (cypher_query : String) : CallTrace :=
  send_query self cypher_query Option.none

/-- Python truthiness-based fallback for an optional string: embedding of the
expression a or d where a is an os.getenv result (None and the empty string
are falsy) and d is a string. -/
def pyOrStr (a : Option String) (d : String) : String :=
  match a with
  | Option.none => d
  | Option.some s => if s = "" then d else s

/-- Python truthiness-based fallback chaining two os.getenv results: embedding
of the expression a or b. -/
def pyOrOpt (a b : Option String) : Option String :=
  match a with
  | Option.none => b
  | Option.some s => if s = "" then b else Option.some s

/-- Environment of one construction of Neo4jForADK: the process environment
read by os.getenv, whether a connection to the database can be established,
and the driver object the external constructor yields on success. -/
structure InitEnv where
  getenv : String → Option String
  connectable : Bool
  theDriver : Driver

/-- Modelled from the spec: the external constructor GraphDatabase.driver of
the neo4j client library, which is not part of src/. Per the configuration
table and error taxonomy of the spec, construction raises when the connection
URI is absent, when the password is absent, or when the connection cannot be
established, and otherwise yields a driver handle. -/
def GraphDatabase_driver (env : InitEnv) (uri : Option String)
    (auth : String × Option String) : ExcOr Driver :=
  match uri with
  | Option.none => ExcOr.exc "cannot construct driver: connection URI is missing"
  | Option.some _ =>
      match auth.2 with
      | Option.none => ExcOr.exc "cannot construct driver: password is missing"
      | Option.some _ =>
          if env.connectable then ExcOr.ok env.theDriver
          else ExcOr.exc "cannot construct driver: connection could not be established"

/-- The local variable neo4j_uri of Neo4jForADK.__init__: os.getenv with no
default. -/
def init_uri (env : InitEnv) : Option String :=
  env.getenv "NEO4J_URI"

/-- The local variable neo4j_username of Neo4jForADK.__init__: os.getenv with
the truthiness fallback to the string neo4j. -/
def init_username (env : InitEnv) : String :=
  pyOrStr (env.getenv "NEO4J_USERNAME") "neo4j"

/-- The local variable neo4j_password of Neo4jForADK.__init__: os.getenv with
no default. -/
def init_password (env : InitEnv) : Option String :=
  env.getenv "NEO4J_PASSWORD"

/-- The local variable neo4j_database of Neo4jForADK.__init__: os.getenv of
NEO4J_DATABASE, with truthiness fallback first to os.getenv of
NEO4J_USERNAME and then to the string neo4j. -/
def init_database (env : InitEnv) : String :=
  pyOrStr (pyOrOpt (env.getenv "NEO4J_DATABASE") (env.getenv "NEO4J_USERNAME")) "neo4j"

/-- Outcome of Neo4jForADK.__init__: a constructed instance, or an exception
propagating out of construction. -/
inductive InitOutcome where
  | constructed : Neo4jForADK → InitOutcome
  | raised : String → InitOutcome

/-- Embedding of Neo4jForADK.__init__: read the four configuration values,
store database_name, and call GraphDatabase.driver once with the raw URI and
the (username, password) auth pair. The constructor call is not wrapped in
any try block, so an exception it raises propagates; no envelope is produced
and no retry is attempted. -/
def Neo4jForADK_init (env : InitEnv) : InitOutcome :=
  match GraphDatabase_driver env (init_uri env) (init_username env, init_password env) with
  | ExcOr.exc m => InitOutcome.raised m
  | ExcOr.ok d => InitOutcome.constructed { driver := d, database_name := init_database env }

/-- Membership of a key in a Python dict represented as a key-value list. -/
def dictHasKey (kvs : List (String × PyValue)) (k : String) : Bool :=
  kvs.any (fun kv => kv.1 == k)

/-- Lookup of a key in a Python dict represented as a key-value list (the
dicts produced by the helpers carry pairwise distinct keys, so first match
agrees with Python dict lookup). -/
def dictLookup (kvs : List (String × PyValue)) (k : String) : Option PyValue :=
  match kvs with
  | [] => Option.none
  | kv :: rest => if kv.1 == k then Option.some kv.2 else dictLookup rest k

/-- The envelope invariant of the spec, for a given payload key: the value is
a dict whose status entry is the string success or the string error, and
exactly one of the payload key and error_message is present, matching the
status. -/
def envelopeInvariant (payloadKey : String) (e : PyValue) : Prop :=
  ∃ kvs, e = PyValue.dict kvs ∧
    ((dictLookup kvs "status" = Option.some (PyValue.str "success") ∧
        dictHasKey kvs payloadKey = true ∧ dictHasKey kvs "error_message" = false) ∨
     (dictLookup kvs "status" = Option.some (PyValue.str "error") ∧
        dictHasKey kvs "error_message" = true ∧ dictHasKey kvs payloadKey = false))

/-- Values already outside every special-cased arm of to_python: the
primitives and opaque objects handled by the final else arm of the source. -/
def is_passthrough : PyValue → Bool
  | PyValue.str _ => true
  | PyValue.int _ => true
  | PyValue.bool _ => true
  | PyValue.none => true
  | PyValue.obj _ => true
  | _ => false

mutual

/-- Fully normalized values in the sense of the spec: primitives, and dicts
and lists built from fully normalized values. -/
def isNormalized : PyValue → Bool
  | PyValue.dict kvs => isNormalizedPairs kvs
  | PyValue.list vs => isNormalizedList vs
  | PyValue.str _ => true
  | PyValue.int _ => true
  | PyValue.bool _ => true
  | PyValue.none => true
  | PyValue.record _ => false
  | PyValue.node _ _ _ => false
  | PyValue.relationship _ _ _ _ _ => false
  | PyValue.path _ _ => false
  | PyValue.dateTime _ => false
  | PyValue.date _ => false
  | PyValue.timeOfDay _ => false
  | PyValue.duration _ => false
  | PyValue.obj _ => false

/-- Elementwise isNormalized over a list. -/
def isNormalizedList : List PyValue → Bool
  | [] => true
  | v :: vs => isNormalized v && isNormalizedList vs

/-- Valuewise isNormalized over the items of a dict. -/
def isNormalizedPairs : List (String × PyValue) → Bool
  | [] => true
  | kv :: kvs => isNormalized kv.2 && isNormalizedPairs kvs

end

mutual

/-- On a fully normalized value, to_python is the identity. -/
theorem to_python_eq_of_isNormalized : ∀ x : PyValue, isNormalized x = true → to_python x = x
  | PyValue.dict kvs, h => by
      rw [show to_python (PyValue.dict kvs) = PyValue.dict (to_python_pairs kvs) from by
        simp [to_python]]
      rw [to_python_pairs_eq_of_isNormalizedPairs kvs (by simpa [isNormalized] using h)]
  | PyValue.list vs, h => by
      rw [show to_python (PyValue.list vs) = PyValue.list (to_python_list vs) from by
        simp [to_python]]
      rw [to_python_list_eq_of_isNormalizedList vs (by simpa [isNormalized] using h)]
  | PyValue.str s, _ => by simp [to_python]
  | PyValue.int n, _ => by simp [to_python]
  | PyValue.bool b, _ => by simp [to_python]
  | PyValue.none, _ => by simp [to_python]
  | PyValue.record kvs, h => by simp [isNormalized] at h
  | PyValue.node i ls props, h => by simp [isNormalized] at h
  | PyValue.relationship i t s e props, h => by simp [isNormalized] at h
  | PyValue.path ns rs, h => by simp [isNormalized] at h
  | PyValue.dateTime s, h => by simp [isNormalized] at h
  | PyValue.date s, h => by simp [isNormalized] at h
  | PyValue.timeOfDay s, h => by simp [isNormalized] at h
  | PyValue.duration s, h => by simp [isNormalized] at h
  | PyValue.obj o, h => by simp [isNormalized] at h

/-- On a list of fully normalized values, to_python_list is the identity. -/
theorem to_python_list_eq_of_isNormalizedList :
    ∀ vs : List PyValue, isNormalizedList vs = true → to_python_list vs = vs
  | [], _ => by simp [to_python_list]
  | v :: vs, h => by
      have h1 : isNormalized v = true ∧ isNormalizedList vs = true := by
        simpa [isNormalizedList, Bool.and_eq_true] using h
      rw [show to_python_list (v :: vs) = to_python v :: to_python_list vs from by
        simp [to_python_list]]
      rw [to_python_eq_of_isNormalized v h1.1, to_python_list_eq_of_isNormalizedList vs h1.2]

/-- On a dict of fully normalized values, to_python_pairs is the identity. -/
theorem to_python_pairs_eq_of_isNormalizedPairs :
    ∀ kvs : List (String × PyValue), isNormalizedPairs kvs = true → to_python_pairs kvs = kvs
  | [], _ => by simp [to_python_pairs]
  | (k, v) :: kvs, h => by
      have h1 : isNormalized v = true ∧ isNormalizedPairs kvs = true := by
        simpa [isNormalizedPairs, Bool.and_eq_true] using h
      rw [show to_python_pairs ((k, v) :: kvs) = (k, to_python v) :: to_python_pairs kvs from by
        simp [to_python_pairs]]
      rw [to_python_eq_of_isNormalized v h1.1, to_python_pairs_eq_of_isNormalizedPairs kvs h1.2]

end

/-- C5: to_python dispatches over the value shapes of the source in the
isinstance order Record, generic dict, list, Node, Relationship, Path,
DateTime, then Date, Time and Duration, then everything else unchanged; in
this embedding the shapes are pairwise disjoint constructors, so the match
arms in source order realize the first-match-wins precedence, and each
matched shape produces exactly the structure the spec prescribes for it:
Record and dict become a dict with every value normalized, a list is
normalized elementwise, a Node becomes the dict with keys id, labels and
properties, a Relationship the dict with keys id, type, start_node, end_node
and properties, a Path the dict with keys nodes and relationships, a
DateTime its iso_format string, the Date, Time and Duration values their str
string, and every other value passes through unchanged. -/
theorem to_python_dispatch_shapes :
    (∀ kvs, to_python (PyValue.record kvs) = PyValue.dict (to_python_pairs kvs)) ∧
    (∀ kvs, to_python (PyValue.dict kvs) = PyValue.dict (to_python_pairs kvs)) ∧
    (∀ vs, to_python (PyValue.list vs) = PyValue.list (to_python_list vs)) ∧
    (∀ i ls props, to_python (PyValue.node i ls props) =
        PyValue.dict [("id", PyValue.int i),
                      ("labels", PyValue.list (ls.map PyValue.str)),
                      ("properties", PyValue.dict (to_python_pairs props))]) ∧
    (∀ i t s e props, to_python (PyValue.relationship i t s e props) =
        PyValue.dict [("id", PyValue.int i),
                      ("type", PyValue.str t),
                      ("start_node", PyValue.int s),
                      ("end_node", PyValue.int e),
                      ("properties", PyValue.dict (to_python_pairs props))]) ∧
    (∀ ns rs, to_python (PyValue.path ns rs) =
        PyValue.dict [("nodes", PyValue.list (to_python_list ns)),
                      ("relationships", PyValue.list (to_python_list rs))]) ∧
    (∀ s, to_python (PyValue.dateTime s) = PyValue.str s) ∧
    (∀ s, to_python (PyValue.date s) = PyValue.str s) ∧
    (∀ s, to_python (PyValue.timeOfDay s) = PyValue.str s) ∧
    (∀ s, to_python (PyValue.duration s) = PyValue.str s) ∧
    (∀ s, to_python (PyValue.str s) = PyValue.str s) ∧
    (∀ n, to_python (PyValue.int n) = PyValue.int n) ∧
    (∀ b, to_python (PyValue.bool b) = PyValue.bool b) ∧
    (to_python PyValue.none = PyValue.none) ∧
    (∀ o, to_python (PyValue.obj o) = PyValue.obj o) :=
  ⟨fun _ => rfl, fun _ => rfl, fun _ => rfl, fun _ _ _ => rfl, fun _ _ _ _ _ => rfl,
   fun _ _ => rfl, fun _ => rfl, fun _ => rfl, fun _ => rfl, fun _ => rfl, fun _ => rfl,
   fun _ => rfl, fun _ => rfl, rfl, fun _ => rfl⟩

/-- C8: to_python is a total function (in this embedding it is definable as a
total Lean function over all Python values, so it never fails), and every
value outside the special-cased arms is returned unchanged by the final else
arm. -/
theorem to_python_total_and_passthrough :
    (∀ v : PyValue, ∃ r, to_python v = r) ∧
    (∀ v : PyValue, is_passthrough v = true → to_python v = v) := by
  constructor
  · intro v
    exact ⟨to_python v, rfl⟩
  · intro v h
    cases v <;> simp_all [is_passthrough, to_python]

/-- Witness for C8 at a concrete opaque driver object. -/
theorem to_python_total_and_passthrough_witness :
    to_python (PyValue.obj "Neo4jDriverObject") = PyValue.obj "Neo4jDriverObject" :=
  to_python_total_and_passthrough.2 (PyValue.obj "Neo4jDriverObject") rfl

/-- C9: to_python is idempotent on every value that is already fully
normalized, that is a primitive or a dict or list built from fully
normalized values. -/
theorem to_python_idempotent_on_normalized (x : PyValue) (h : isNormalized x = true) :
    to_python (to_python x) = to_python x := by
  rw [to_python_eq_of_isNormalized x h]
  exact to_python_eq_of_isNormalized x h

/-- Witness for C9 at a concrete normalized dict. -/
theorem to_python_idempotent_on_normalized_witness :
    isNormalized (PyValue.dict [("a", PyValue.list [PyValue.int 1, PyValue.str "b"])]) = true ∧
    to_python (to_python (PyValue.dict [("a", PyValue.list [PyValue.int 1, PyValue.str "b"])])) =
      to_python (PyValue.dict [("a", PyValue.list [PyValue.int 1, PyValue.str "b"])]) :=
  ⟨rfl, to_python_idempotent_on_normalized
    (PyValue.dict [("a", PyValue.list [PyValue.int 1, PyValue.str "b"])]) rfl⟩

/-- A session whose run succeeds with one record mapping x to 1. -/
def okSession : SessionObj :=
  { run := fun _ _ _ => ExcOr.ok { to_eager_records := ExcOr.ok [[("x", PyValue.int 1)]] } }

/-- A gateway whose session acquisition and query both succeed. -/
def okGateway : Neo4jForADK :=
  { driver := { session := ExcOr.ok okSession }, database_name := "neo4j" }

/-- A gateway whose driver raises from session(), before the try block of
send_query. -/
def failingAcquireGateway : Neo4jForADK :=
  { driver := { session := ExcOr.exc "driver session acquisition failed" },
    database_name := "neo4j" }

/-- A session whose run raises, as on a cypher syntax error. -/
def failingRunSession : SessionObj :=
  { run := fun _ _ _ => ExcOr.exc "Invalid input" }

/-- A gateway whose session acquisition succeeds but whose query raises. -/
def failingRunGateway : Neo4jForADK :=
  { driver := { session := ExcOr.ok failingRunSession }, database_name := "neo4j" }

/-- Counterexample for C1: the statement session = self.driver.session()
stands before the try block of send_query, so an exception raised during
session acquisition propagates to the caller uncaught and no error envelope
is returned, contrary to the claim that any exception raised during session
acquisition is caught. -/
theorem send_query_acquisition_exception_escapes :
    (send_query failingAcquireGateway "RETURN 1" Option.none).exit =
      CallExit.raised "driver session acquisition failed" ∧
    ∀ e, (send_query failingAcquireGateway "RETURN 1" Option.none).exit ≠ CallExit.ret e := by
  constructor
  · rfl
  · intro e h
    exact CallExit.noConfusion h

/-- C1 (amended): when session acquisition succeeds, any exception raised
during query execution or result materialization inside send_query is caught
and the call returns the error envelope carrying the exception message, and
the call always returns an envelope rather than raising; an exception raised
during session acquisition itself propagates to the caller uncaught. -/
theorem send_query_exception_handling (self : Neo4jForADK) (q : String)
    (p : Option (List (String × PyValue))) :
    (∀ m, self.driver.session = ExcOr.exc m →
        (send_query self q p).exit = CallExit.raised m) ∧
    (∀ session m, self.driver.session = ExcOr.ok session →
        (session.run q (paramsOrEmpty p) self.database_name = ExcOr.exc m ∨
         ∃ result, session.run q (paramsOrEmpty p) self.database_name = ExcOr.ok result ∧
           result.to_eager_records = ExcOr.exc m) →
        (send_query self q p).exit = CallExit.ret (tool_error m)) ∧
    (∀ session, self.driver.session = ExcOr.ok session →
        ∃ e, (send_query self q p).exit = CallExit.ret e) := by
  refine ⟨?_, ?_, ?_⟩
  · intro m hm
    simp [send_query, hm]
  · intro session m hs hfail
    rcases hfail with hrun | ⟨result, hrun, heager⟩
    · simp [send_query, hs, hrun]
    · simp [send_query, hs, hrun, result_to_adk, heager]
  · intro session hs
    cases hrun : session.run q (paramsOrEmpty p) self.database_name with
    | exc m => exact ⟨tool_error m, by simp [send_query, hs, hrun]⟩
    | ok result =>
        cases heager : result.to_eager_records with
        | exc m => exact ⟨tool_error m, by simp [send_query, hs, hrun, result_to_adk, heager]⟩
        | ok records =>
            exact ⟨tool_success "query_result"
                (PyValue.list (records.map (fun record => to_python (PyValue.dict record)))),
              by simp [send_query, hs, hrun, result_to_adk, heager]⟩

/-- Witness for the amended C1 at a gateway whose query raises. -/
theorem send_query_exception_handling_witness :
    (send_query failingRunGateway "RETURN 1" Option.none).exit =
      CallExit.ret (tool_error "Invalid input") :=
  (send_query_exception_handling failingRunGateway "RETURN 1" Option.none).2.1
    failingRunSession "Invalid input" rfl (Or.inl rfl)

/-- C2: on the success path send_query returns the success envelope under the
fixed key query_result, holding the ordered list of all eagerly materialized
records, each normalized into the dict mapping every column name to the
to_python normalization of its value. -/
theorem send_query_success_envelope (self : Neo4jForADK) (q : String)
    (p : Option (List (String × PyValue))) (session : SessionObj) (result : ResultObj)
    (records : List (List (String × PyValue)))
    (hs : self.driver.session = ExcOr.ok session)
    (hrun : session.run q (paramsOrEmpty p) self.database_name = ExcOr.ok result)
    (heager : result.to_eager_records = ExcOr.ok records) :
    (send_query self q p).exit =
      CallExit.ret (tool_success "query_result"
        (PyValue.list (records.map (fun record => PyValue.dict (to_python_pairs record))))) := by
  have hdict : ∀ r : List (String × PyValue),
      to_python (PyValue.dict r) = PyValue.dict (to_python_pairs r) := fun _ => rfl
  simp [send_query, hs, hrun, result_to_adk, heager, hdict]

/-- Witness for C2 at a gateway returning one record mapping x to 1. -/
theorem send_query_success_envelope_witness :
    (send_query okGateway "RETURN 1 AS x" Option.none).exit =
      CallExit.ret (tool_success "query_result"
        (PyValue.list [PyValue.dict [("x", PyValue.int 1)]])) :=
  send_query_success_envelope okGateway "RETURN 1 AS x" Option.none okSession
    { to_eager_records := ExcOr.ok [[("x", PyValue.int 1)]] } [[("x", PyValue.int 1)]]
    rfl rfl rfl

/-- C4: every call to send_query closes exactly as many sessions as it
acquires, and whenever the session of the call is acquired, the call acquires
and closes it exactly once, on the success and error paths alike. -/
theorem send_query_session_release (self : Neo4jForADK) (q : String)
    (p : Option (List (String × PyValue))) :
    (send_query self q p).sessionsClosed = (send_query self q p).sessionsAcquired ∧
    (∀ session, self.driver.session = ExcOr.ok session →
        (send_query self q p).sessionsAcquired = 1 ∧
        (send_query self q p).sessionsClosed = 1) := by
  constructor
  · cases hs : self.driver.session with
    | exc m => simp [send_query, hs]
    | ok session =>
        cases hrun : session.run q (paramsOrEmpty p) self.database_name with
        | exc m => simp [send_query, hs, hrun]
        | ok result =>
            cases heager : result.to_eager_records with
            | exc m => simp [send_query, hs, hrun, result_to_adk, heager]
            | ok records => simp [send_query, hs, hrun, result_to_adk, heager]
  · intro session hs
    cases hrun : session.run q (paramsOrEmpty p) self.database_name with
    | exc m => simp [send_query, hs, hrun]
    | ok result =>
        cases heager : result.to_eager_records with
        | exc m => simp [send_query, hs, hrun, result_to_adk, heager]
        | ok records => simp [send_query, hs, hrun, result_to_adk, heager]

/-- Witness for C4 on a succeeding call and on a failing call. -/
theorem send_query_session_release_witness :
    (send_query okGateway "RETURN 1 AS x" Option.none).sessionsAcquired = 1 ∧
    (send_query okGateway "RETURN 1 AS x" Option.none).sessionsClosed = 1 ∧
    (send_query failingRunGateway "RETURN 1" Option.none).sessionsClosed = 1 :=
  ⟨((send_query_session_release okGateway "RETURN 1 AS x" Option.none).2 okSession rfl).1,
   ((send_query_session_release okGateway "RETURN 1 AS x" Option.none).2 okSession rfl).2,
   ((send_query_session_release failingRunGateway "RETURN 1" Option.none).2
      failingRunSession rfl).2⟩

/-- The error envelope satisfies the envelope invariant for the payload key
query_result. -/
theorem tool_error_invariant (m : String) :
    envelopeInvariant "query_result" (tool_error m) :=
  ⟨_, rfl, Or.inr ⟨rfl, rfl, rfl⟩⟩

/-- The success envelope under the key query_result satisfies the envelope
invariant for that payload key. -/
theorem tool_success_query_result_invariant (payload : PyValue) :
    envelopeInvariant "query_result" (tool_success "query_result" payload) :=
  ⟨_, rfl, Or.inl ⟨rfl, rfl, rfl⟩⟩

/-- C7: every envelope returned by send_query (which builds its envelopes
through the helpers tool_success with key query_result and tool_error)
satisfies the envelope invariant: the status entry is the string success or
the string error, a success envelope carries the payload key query_result and
no error_message, and an error envelope carries error_message and not the
payload key. -/
theorem send_query_envelope_invariant (self : Neo4jForADK) (q : String)
    (p : Option (List (String × PyValue))) (e : PyValue)
    (h : (send_query self q p).exit = CallExit.ret e) :
    envelopeInvariant "query_result" e := by
  cases hs : self.driver.session with
  | exc m => simp [send_query, hs] at h
  | ok session =>
      cases hrun : session.run q (paramsOrEmpty p) self.database_name with
      | exc m =>
          simp [send_query, hs, hrun] at h
          exact h ▸ tool_error_invariant m
      | ok result =>
          cases heager : result.to_eager_records with
          | exc m =>
              simp [send_query, hs, hrun, result_to_adk, heager] at h
              exact h ▸ tool_error_invariant m
          | ok records =>
              simp [send_query, hs, hrun, result_to_adk, heager] at h
              exact h ▸ tool_success_query_result_invariant _

/-- Witness for C7 at a succeeding call of the concrete gateway. -/
theorem send_query_envelope_invariant_witness :
    envelopeInvariant "query_result"
      (tool_success "query_result" (PyValue.list [PyValue.dict [("x", PyValue.int 1)]])) :=
  send_query_envelope_invariant okGateway "RETURN 1 AS x" Option.none _ rfl

/-- C10: calling send_query with the parameters argument omitted (the Python
default is None), with parameters None, or with the falsy empty dict executes
the query with the empty parameter dict, and all three produce identical
behavior. -/
theorem send_query_default_parameters (self : Neo4jForADK) (q : String) :
    send_query_default self q = send_query self q Option.none ∧
    send_query self q (Option.some []) = send_query self q Option.none ∧
    paramsOrEmpty Option.none = [] ∧
    paramsOrEmpty (Option.some []) = [] ∧
    (∀ session, self.driver.session = ExcOr.ok session →
        (send_query self q Option.none).runCalls = [(q, [], self.database_name)] ∧
        (send_query self q (Option.some [])).runCalls = [(q, [], self.database_name)]) := by
  refine ⟨rfl, rfl, rfl, rfl, ?_⟩
  intro session hs
  cases hrun : session.run q [] self.database_name with
  | exc m => constructor <;> simp [send_query, hs, paramsOrEmpty, hrun]
  | ok result =>
      cases heager : result.to_eager_records with
      | exc m =>
          constructor <;> simp [send_query, hs, paramsOrEmpty, hrun, result_to_adk, heager]
      | ok records =>
          constructor <;> simp [send_query, hs, paramsOrEmpty, hrun, result_to_adk, heager]

/-- Witness for C10: the concrete gateway receives the empty parameter dict
when parameters is None and when it is the empty dict. -/
theorem send_query_default_parameters_witness :
    (send_query okGateway "RETURN 1 AS x" Option.none).runCalls =
      [("RETURN 1 AS x", [], "neo4j")] ∧
    (send_query okGateway "RETURN 1 AS x" (Option.some [])).runCalls =
      [("RETURN 1 AS x", [], "neo4j")] :=
  (send_query_default_parameters okGateway "RETURN 1 AS x").2.2.2.2 okSession rfl

/-- C6: at construction the username defaults to the string neo4j when unset;
the database name falls back first to the username environment value and then
to the string neo4j when unset; the connection URI and the password are read
raw, with no default applied. -/
theorem init_configuration_defaults (env : InitEnv) :
    (env.getenv "NEO4J_USERNAME" = Option.none → init_username env = "neo4j") ∧
    (∀ u, env.getenv "NEO4J_DATABASE" = Option.none →
        env.getenv "NEO4J_USERNAME" = Option.some u → u ≠ "" → init_database env = u) ∧
    (env.getenv "NEO4J_DATABASE" = Option.none → env.getenv "NEO4J_USERNAME" = Option.none →
        init_database env = "neo4j") ∧
    init_uri env = env.getenv "NEO4J_URI" ∧
    init_password env = env.getenv "NEO4J_PASSWORD" := by
  refine ⟨?_, ?_, ?_, rfl, rfl⟩
  · intro h
    simp [init_username, pyOrStr, h]
  · intro u hd hu hne
    simp [init_database, pyOrOpt, pyOrStr, hd, hu, hne]
  · intro hd hu
    simp [init_database, pyOrOpt, pyOrStr, hd, hu]

/-- An environment with no configuration values set. -/
def envUnset : InitEnv :=
  { getenv := fun _ => Option.none, connectable := true,
    theDriver := { session := ExcOr.exc "unused" } }

/-- An environment where only the username is set, to the value alice. -/
def envDbFromUsername : InitEnv :=
  { getenv := fun k => if k = "NEO4J_USERNAME" then Option.some "alice" else Option.none,
    connectable := true, theDriver := { session := ExcOr.exc "unused" } }

/-- Witness for C6 on a fully unset environment and on an environment whose
username alone is set. -/
theorem init_configuration_defaults_witness :
    init_username envUnset = "neo4j" ∧ init_database envUnset = "neo4j" ∧
    init_database envDbFromUsername = "alice" :=
  ⟨(init_configuration_defaults envUnset).1 rfl,
   (init_configuration_defaults envUnset).2.2.1 rfl rfl,
   (init_configuration_defaults envDbFromUsername).2.1 "alice" (by simp [envDbFromUsername])
     (by simp [envDbFromUsername]) (by simp)⟩

/-- C3: construction of the gateway raises whenever the connection URI is
absent, the password is absent, or the connection cannot be established, and
it neither returns a constructed instance nor converts the failure into an
error envelope; the embedding performs the single constructor call of the
source, so the failure is not retried. -/
theorem init_fails_fast (env : InitEnv)
    (h : init_uri env = Option.none ∨ init_password env = Option.none ∨
      env.connectable = false) :
    (∃ m, Neo4jForADK_init env = InitOutcome.raised m) ∧
    ∀ inst, Neo4jForADK_init env ≠ InitOutcome.constructed inst := by
  have hexc : ∃ m, GraphDatabase_driver env (init_uri env)
      (init_username env, init_password env) = ExcOr.exc m := by
    rcases h with h1 | h2 | h3
    · exact ⟨"cannot construct driver: connection URI is missing",
        by simp [GraphDatabase_driver, h1]⟩
    · cases hu : init_uri env with
      | none => exact ⟨"cannot construct driver: connection URI is missing",
          by simp [GraphDatabase_driver, hu]⟩
      | some s => exact ⟨"cannot construct driver: password is missing",
          by simp [GraphDatabase_driver, hu, h2]⟩
    · cases hu : init_uri env with
      | none => exact ⟨"cannot construct driver: connection URI is missing",
          by simp [GraphDatabase_driver, hu]⟩
      | some s =>
          cases hp : init_password env with
          | none => exact ⟨"cannot construct driver: password is missing",
              by simp [GraphDatabase_driver, hu, hp]⟩
          | some t => exact ⟨"cannot construct driver: connection could not be established",
              by simp [GraphDatabase_driver, hu, hp, h3]⟩
  obtain ⟨m, hm⟩ := hexc
  refine ⟨⟨m, ?_⟩, ?_⟩
  · simp [Neo4jForADK_init, hm]
  · intro inst hinst
    simp [Neo4jForADK_init, hm] at hinst

/-- Witness for C3 on the fully unset environment. -/
theorem init_fails_fast_witness :
    ∃ m, Neo4jForADK_init envUnset = InitOutcome.raised m :=
  (init_fails_fast envUnset (Or.inl rfl)).1

end AdkNeo4j
